import Mathlib

/-
Verification development for the pi_video_looper sources.

Shallow embedding of:
- Adafruit_Video_Looper/usb_drive_copymode.py  (USBDriveReaderCopy: copy_files,
  check_file_exists, copyfile, copyfileobj, copy_with_progress, is_changed)
- Adafruit_Video_Looper/video_looper.py        (VideoLooper: _build_playlist,
  _build_playlist_from_all_files, run-loop play/wait/rebuild logic)
- Adafruit_Video_Looper/alsa_config.py         (AlsaConfig.parse_hw_device_tuple,
  parse_device_name)

File systems are modelled as explicit data (directory listings as lists of entry
names) or as function-valued records; fallible Python code returns Except or an
explicit error component.  Machine-level details that no claim touches (byte
contents of files, timestamps) are not modelled; file NAMES and control flow are.
-/

deriving instance DecidableEq for Except

/- ===== character/string helpers (executable stand-ins for Python str ops) ===== -/

/-- Maximal leading run of decimal digits of a char list (regex `[0-9]*`, greedy). -/
def digitsToNat (cs : List Char) : Nat :=
  cs.foldl (fun acc c => acc * 10 + (c.toNat - 48)) 0

/-- Does the first list lead the second (first is an initial segment of second)? -/
def leadMatch : List Char → List Char → Bool
  | [], _ => true
  | _ :: _, [] => false
  | p :: ps, c :: cs => p == c && leadMatch ps cs

/-- Lower-case every character (ASCII, as Python re.IGNORECASE behaves on these names). -/
def lowerList (cs : List Char) : List Char := cs.map Char.toLower

/-- Python os.path absolute-path test (posix): the path begins with a slash. -/
def isAbsPath (p : String) : Bool :=
  match p.toList with
  | c :: _ => c == '/'
  | [] => false

/-- Python str.rstrip for the slash character: drop every trailing slash. -/
def rstripSlash (p : String) : String :=
  ⟨(p.toList.reverse.dropWhile (fun c => c == '/')).reverse⟩

/-- Python os.path.join for two components (posix): an absolute second component
wins; otherwise insert a separator unless the first already ends in one. -/
def pathJoin (root p : String) : String :=
  if isAbsPath p = true then p
  else if root = "" then p
  else match root.toList.reverse with
    | '/' :: _ => root ++ p
    | _ => root ++ "/" ++ p

/-- Python os.path.splitext: split off the extension beginning at the last dot of
the final path component, provided some earlier character of that component is
not a dot (so dotfiles such as .bashrc have no extension). -/
def splitext (p : String) : String × String :=
  let rev := p.toList.reverse
  let tl := rev.takeWhile (fun c => !(c == '.') && !(c == '/'))
  match rev.drop tl.length with
  | '.' :: rest2 =>
    if (rest2.takeWhile (fun c => !(c == '/'))).any (fun c => !(c == '.')) then
      (⟨rest2.reverse⟩, ⟨'.' :: tl.reverse⟩)
    else (p, "")
  | _ => (p, "")

/- ===== usb_drive_copymode.py : USBDriveReaderCopy ===== -/

/-- Python exception classes raised along the copy path of usb_drive_copymode.py. -/
inductive PyErr where
  | typeError
  | sameFileError
  | specialFileError
  | osError
deriving DecidableEq

/-- What os.stat reports for a path in the parts of the file model the copy path
inspects: a regular file or a named pipe. -/
inductive StatKind where
  | regular
  | fifo
deriving DecidableEq

/-- The facts about a (src, dst) pair that copyfile's control flow branches on:
whether the two paths denote the same file, what stat reports for each (none
models a stat that raises OSError, e.g. a missing file), and whether src is a
symbolic link. -/
structure CopyCtx where
  sameFile : Bool
  srcStat : Option StatKind
  dstStat : Option StatKind
  srcIsLink : Bool
deriving DecidableEq

/-- The parameter list of USBDriveReaderCopy.copyfileobj after self:
(fsrc, fdst, callback, total, length=16*1024); the flag records whether the
parameter has a default value. -/
def copyfileobjParams : List (String × Bool) :=
  [("fsrc", false), ("fdst", false), ("callback", false), ("total", false), ("length", true)]

/-- Python call binding: every parameter must be supplied positionally (index
below the positional-argument count), by keyword, or have a default; otherwise
the call raises TypeError before the body runs. -/
def callBinds (params : List (String × Bool)) (nPos : Nat) (kws : List String) : Bool :=
  params.enum.all (fun q => decide (q.1 < nPos) || kws.contains q.2.1 || q.2.2)

/-- USBDriveReaderCopy.copyfile(src, dst, follow_symlinks): raise SameFileError if
src and dst are the same file; raise SpecialFileError if a successful stat of
src or dst reports a named pipe (stat failures in that check are swallowed);
with follow_symlinks false and src a symlink, create a symlink (no data copy);
otherwise stat src for its size (raising OSError if it vanished), open src and
dst — open(dst, 'wb') creates or truncates dst, reported by the Bool component —
and invoke self.copyfileobj(fsrc, fdst, total=size), a call that must bind
copyfileobj's parameters. -/
def copyfile (ctx : CopyCtx) (followSymlinks : Bool) : Except PyErr Unit × Bool :=
  if ctx.sameFile = true then (.error .sameFileError, false)
  else if ctx.srcStat = some .fifo ∨ ctx.dstStat = some .fifo then (.error .specialFileError, false)
  else if followSymlinks = false ∧ ctx.srcIsLink = true then (.ok (), true)
  else match ctx.srcStat with
    | none => (.error .osError, false)
    | some _ =>
      if callBinds copyfileobjParams 2 ["total"] = true then (.ok (), true)
      else (.error .typeError, true)

/-- USBDriveReaderCopy.copy_with_progress: the os.path.isdir(dst) branch only
redirects dst into the directory (a pure path computation on names); the data
path always goes through copyfile. -/
def copy_with_progress (ctx : CopyCtx) (followSymlinks : Bool) : Except PyErr Unit × Bool :=
  copyfile ctx followSymlinks

/-- A source root as copy_files sees it: whether os.path.exists and os.path.isdir
hold for it, and its directory entries (modelled as names of regular files;
os.listdir never yields an empty name). -/
structure Root where
  isDir : Bool
  files : List String
deriving DecidableEq

/-- The configuration fields of USBDriveReaderCopy that copy_files reads:
the configured default mode, password, copyloader flag, the supported
extensions (already split on commas with dots stripped), and what stat reports
for the fixed loader destination /home/pi/loader.png. -/
structure CopyCfg where
  copyMode : String
  password : String
  copyloader : Bool
  exts : List String
  loaderDst : Option StatKind
deriving DecidableEq

/-- The state copy_files threads through its loop over roots: the copy_mode
local variable and the set of file names in the target library directory. -/
structure CopySt where
  copyMode : String
  target : List String
deriving DecidableEq

/-- USBDriveReaderCopy.check_file_exists: glob(file + ".*") + glob(file) is
nonempty, i.e. some entry is named exactly `name` or `name` followed by a dot
and anything (the password and trigger names contain no glob metacharacters). -/
def check_file_exists (files : List String) (name : String) : Bool :=
  files.any (fun f => f == name || leadMatch (name.toList ++ ['.']) f.toList)

/-- The filter applied both to the deletion pass over the target directory and
to the copy pass over a source root: `x[0] is not '.'` and the regex
search of a dot followed by one of the supported extensions at the end of the
name, case-insensitively. -/
def mediaName (exts : List String) (x : String) : Bool :=
  (match x.toList with
   | c :: _ => !(c == '.')
   | [] => false)
  && exts.any (fun e => leadMatch (lowerList ('.' :: e.toList)).reverse (lowerList x.toList).reverse)

/-- The copy-mode override block of copy_files (three sequential ifs over the
copy_mode variable): a `replace` trigger file sets "replace", then an `add`
trigger sets "add", and if both triggers exist the configured default is
restored.  `prev` is the value the variable had when the root was reached. -/
def determineMode (prev dflt : String) (files : List String) : String :=
  let cm1 := if check_file_exists files "replace" = true then "replace" else prev
  let cm2 := if check_file_exists files "add" = true then "add" else cm1
  if check_file_exists files "replace" = true ∧ check_file_exists files "add" = true then dflt
  else cm2

/-- Follows the spec's words (a reference point to compare the source against,
not itself translated from the source): the effective copy mode of a root is
the configured default unless exactly one of the `replace`/`add` trigger files
exists at that root. -/
def specEffectiveMode (dflt : String) (files : List String) : String :=
  if check_file_exists files "replace" = true ∧ check_file_exists files "add" = false then "replace"
  else if check_file_exists files "add" = true ∧ check_file_exists files "replace" = false then "add"
  else dflt

/-- open(dst, 'wb') at a name inside the target directory: the name now exists
there (creation), or is truncated in place if it already did. -/
def addFile (target : List String) (x : String) : List String :=
  if target.contains x then target else target ++ [x]

/-- The copy context copy_files builds for one source entry x: the source
path/x is an entry of the source root (an existing regular file), and the
destination target/x lies in a different directory, so it is never the same
file; it already exists exactly when the target listing contains x. -/
def copyCtxFor (target : List String) (x : String) : CopyCtx :=
  { sameFile := false, srcStat := some .regular,
    dstStat := if target.contains x then some .regular else none, srcIsLink := false }

/-- The copy pass of copy_files over one root's listing: every non-hidden entry
matching the supported extensions is handed to copy_with_progress (an exception
there propagates, abandoning the rest of the listing); the Bool component of
copy_with_progress tells whether dst was created before the failure. -/
def copyLoop (exts : List String) : List String → List String → List String × Option PyErr
  | [], target => (target, none)
  | x :: rest, target =>
    if mediaName exts x = true then
      match copy_with_progress (copyCtxFor target x) true with
      | (.ok _, created) => copyLoop exts rest (if created then addFile target x else target)
      | (.error e, created) => ((if created then addFile target x else target), some e)
    else copyLoop exts rest target

/-- The body of copy_files for one root: skip roots that do not exist as
directories; skip the root when a non-empty password is configured and no
matching password file exists; otherwise run the override block, delete every
non-hidden extension-matching file from the target when the effective mode is
"replace", copy the root's matching entries, and finally copy loader.png to the
fixed loader destination when enabled.  An exception anywhere propagates with
the partial state. -/
def processRoot (cfg : CopyCfg) (st : CopySt) (r : Root) : CopySt × Option PyErr :=
  if r.isDir = false then (st, none)
  else if cfg.password ≠ "" ∧ check_file_exists r.files cfg.password = false then (st, none)
  else
    let cm := determineMode st.copyMode cfg.copyMode r.files
    let tgt0 := if cm = "replace" then st.target.filter (fun x => !(mediaName cfg.exts x)) else st.target
    let res := copyLoop cfg.exts r.files tgt0
    let err :=
      match res.2 with
      | some e => some e
      | none =>
        if cfg.copyloader = true ∧ r.files.contains "loader.png" = true then
          match copy_with_progress
              { sameFile := false, srcStat := some .regular,
                dstStat := cfg.loaderDst, srcIsLink := false } true with
          | (.ok _, _) => none
          | (.error e, _) => some e
        else none
    ({ copyMode := cm, target := res.1 }, err)

/-- The for-loop of copy_files over the sequence of source roots: an exception
raised while processing a root propagates out of copy_files immediately,
leaving the remaining roots unprocessed. -/
def copyFilesLoop (cfg : CopyCfg) : List Root → CopySt → CopySt × Option PyErr
  | [], st => (st, none)
  | r :: rest, st =>
    match processRoot cfg st r with
    | (st', none) => copyFilesLoop cfg rest st'
    | (st', some e) => (st', some e)

/-- USBDriveReaderCopy.copy_files(paths): the copy_mode variable starts from the
configured default, then the roots are processed in order. -/
def copy_files (cfg : CopyCfg) (roots : List Root) (target : List String) : CopySt × Option PyErr :=
  copyFilesLoop cfg roots { copyMode := cfg.copyMode, target := target }

/- ===== usb_drive_copymode.py : is_changed (USBDriveMounter modelled from spec) ===== -/

/-- Modelled from the spec: usb_drive_mounter.py is not under src.  Per spec
4.1 the monitor keeps the current set of qualifying nodes (updated by a
background watcher) and the snapshot observed at the previous poll. -/
structure MounterState where
  current : List String
  snapshot : List String
deriving DecidableEq

/-- Modelled from the spec: poll_changes compares the previous observed snapshot
to the current node set, reports whether they differ, then updates the
snapshot. -/
def poll_changes (s : MounterState) : Bool × MounterState :=
  (s.current != s.snapshot, { s with snapshot := s.current })

/-- Modelled from the spec: has_nodes is true if at least one qualifying node is
currently attached. -/
def has_nodes (s : MounterState) : Bool := !s.current.isEmpty

/-- USBDriveReaderCopy.is_changed: poll_changes() is evaluated first (updating
the snapshot), then has_nodes(); the reader reports a change only when both
hold. -/
def is_changed (s : MounterState) : Bool × MounterState :=
  let p := poll_changes s
  (p.1 && has_nodes p.2, p.2)

/- ===== alsa_config.py : AlsaConfig ===== -/

/-- Split a char list at every comma (the shape test for the regex
`(\d+),(\d+)` anchored at both ends: exactly two comma-separated nonempty
all-digit groups). -/
def splitCommaAux : List Char → List Char → List (List Char)
  | [], cur => [cur.reverse]
  | c :: cs, cur =>
    if c == ',' then cur.reverse :: splitCommaAux cs []
    else splitCommaAux cs (c :: cur)

/-- The anchored regex match of alsa_config.py: `^(\d+),(\d+)$` with the two
groups converted by int(). -/
def hwTupleRegex (s : String) : Option (Nat × Nat) :=
  match splitCommaAux s.toList [] with
  | [a, b] =>
    if a ≠ [] ∧ b ≠ [] ∧ a.all Char.isDigit = true ∧ b.all Char.isDigit = true then
      some (digitsToNat a, digitsToNat b)
    else none
  | _ => none

/-- AlsaConfig.parse_device_name over an enumeration of available cards (the
pyalsa card list, passed in as (index, display-name) pairs): the first card
whose display name equals the search string, else the implicit None. -/
def parse_device_name (cards : List (Nat × String)) (searchName : String) : Option Nat :=
  (cards.find? (fun c => c.2 == searchName)).map (fun c => c.1)

/-- The two shapes of value parse_hw_device_tuple can produce: a real
(card, device) pair from the regex branch, or the bare card index from the
name branch, where `return (m)` parenthesizes an int rather than building a
tuple. -/
inductive HwDevice where
  | pair (card dev : Nat)
  | cardOnly (card : Nat)
deriving DecidableEq

/-- AlsaConfig.parse_hw_device_tuple: empty string gives None; a `N,N` literal
gives the int pair; otherwise a card-name lookup gives the bare card number,
and a failed lookup raises RuntimeError. -/
def parse_hw_device_tuple (cards : List (Nat × String)) (s : String) :
    Except String (Option HwDevice) :=
  if s = "" then .ok none
  else match hwTupleRegex s with
    | some cd => .ok (some (.pair cd.1 cd.2))
    | none =>
      match parse_device_name cards s with
      | some m => .ok (some (.cardOnly m))
      | none => .error ("Invalid value for alsa hardware device: " ++ s)

/- ===== video_looper.py : _build_playlist_from_all_files and _build_playlist ===== -/

/-- The regex search `_repeat_([0-9]*)x` (IGNORECASE) tried at one start
position: the literal `_repeat_`, then the greedy digit run, then an `x`.
Backtracking cannot help: a shorter digit run ends at a digit, never at `x`. -/
def matchRepeatAt (cs : List Char) : Option String :=
  if leadMatch "_repeat_".toList (lowerList cs) = true then
    match (cs.drop 8).drop ((cs.drop 8).takeWhile Char.isDigit).length with
    | c :: _ =>
      if c.toLower == 'x' then some ⟨(cs.drop 8).takeWhile Char.isDigit⟩ else none
    | [] => none
  else none

/-- re.search: try every start position left to right, returning the first
position at which the pattern matches. -/
def searchRepeat : List Char → Option String
  | [] => none
  | c :: cs =>
    match matchRepeatAt (c :: cs) with
    | some g => some g
    | none => searchRepeat cs

/-- The repeatsetting extraction of _build_playlist_from_all_files: the first
group of re.search of `_repeat_([0-9]*)x` over the filename, IGNORECASE. -/
def repeatSetting (x : String) : Option String := searchRepeat x.toList

/-- Modelled from the spec: model.py is not under src.  Per spec 3 a Movie
stores a path, a title (filename minus extension) and repeats as a positive
integer starting playcount at 0; the directory scanner passes the regex group
as a string, so the constructor converts it with int(). -/
structure Movie where
  path : String
  title : String
  repeats : Int
  playcount : Int
deriving DecidableEq

/-- Modelled from the spec: Python int() applied to the values reaching Movie
here — a digit-only string converts to its decimal value, anything else (in
particular the empty string) raises ValueError. -/
def pyInt (s : String) : Option Int :=
  if s.toList ≠ [] ∧ s.toList.all Char.isDigit = true then
    some (Int.ofNat (digitsToNat s.toList))
  else none

/-- One scanned directory entry turned into a Movie, as in
_build_playlist_from_all_files: path joined with a slash after rstrip('/'),
title from splitext, and the repeat count from the regex group when it matched
(a string handed to int()) or the literal int 1 when it did not. -/
def movieOfFilename (dirPath x : String) : Except String Movie :=
  match repeatSetting x with
  | some g =>
    match pyInt g with
    | some n =>
      .ok { path := rstripSlash dirPath ++ "/" ++ x, title := (splitext x).1,
            repeats := n, playcount := 0 }
    | none => .error "ValueError: invalid literal for int()"
  | none =>
    .ok { path := rstripSlash dirPath ++ "/" ++ x, title := (splitext x).1,
          repeats := 1, playcount := 0 }

/-- Only the repeat count of the Movie the scanner would build for a filename
(independent of the directory); none when Movie construction raises. -/
def scannedRepeats (x : String) : Option Int :=
  (movieOfFilename "" x).toOption.map Movie.repeats

/-- An ordered, resumable traversal over Movies (only the movie list matters to
the claims below). -/
structure Playlist where
  movies : List Movie
deriving DecidableEq

/-- Insertion step for the path-ordered sort of the scanned movies. -/
def insertByPath (m : Movie) : List Movie → List Movie
  | [] => [m]
  | n :: ns => if m.path ≤ n.path then m :: n :: ns else n :: insertByPath m ns

/-- Modelled from the spec for the comparison key only: sorted(movies) sorts by
a stable comparison key, the path (model.py, which defines the Movie ordering,
is not under src). -/
def sortByPath : List Movie → List Movie
  | [] => []
  | m :: ms => insertByPath m (sortByPath ms)

/-- The file-system facts _build_playlist and the directory scan consult:
os.path.exists, os.path.isdir, os.path.isfile and os.listdir.  search_paths()
is modelled as a fixed list passed alongside (the reader returns the same
library directories on each call within one build). -/
structure FS where
  pathExists : String → Bool
  isdir : String → Bool
  isfile : String → Bool
  listdir : String → List String

/-- A concrete file system with no files at all (an empty library). -/
def fsNone : FS :=
  { pathExists := fun _ => false, isdir := fun _ => false,
    isfile := fun _ => false, listdir := fun _ => [] }

/-- The inner entry loop of _build_playlist_from_all_files over one directory
listing: non-hidden extension-matching entries become Movies, appended in
listing order; a ValueError from Movie construction propagates. -/
def scanEntries (exts : List String) (dirPath : String) :
    List String → List Movie → Except String (List Movie)
  | [], acc => .ok acc
  | x :: rest, acc =>
    if mediaName exts x = true then
      match movieOfFilename dirPath x with
      | .ok mv => scanEntries exts dirPath rest (acc ++ [mv])
      | .error e => .error e
    else scanEntries exts dirPath rest acc

/-- The outer loop of _build_playlist_from_all_files over the search paths,
skipping paths that do not exist or are not directories.  (The opportunistic
reads of the two volume sidecar files touch only the volume state, not the
playlist, and are not modelled.) -/
def scanPaths (fs : FS) (exts : List String) :
    List String → List Movie → Except String (List Movie)
  | [], acc => .ok acc
  | p :: rest, acc =>
    if fs.pathExists p = true ∧ fs.isdir p = true then
      match scanEntries exts p (fs.listdir p) acc with
      | .ok acc2 => scanPaths fs exts rest acc2
      | .error e => .error e
    else scanPaths fs exts rest acc

/-- VideoLooper._build_playlist_from_all_files: scan every search path and wrap
the sorted movie list in a Playlist. -/
def buildPlaylistFromAllFiles (fs : FS) (exts : List String) (paths : List String) :
    Except String Playlist :=
  match scanPaths fs exts paths [] with
  | .ok ms => .ok { movies := sortByPath ms }
  | .error e => .error e

/-- The tail of _build_playlist once a playlist path has resolved to a file:
parse it with build_playlist_m3u when the extension is .m3u or .m3u8 (the
parser lives in playlist_builders.py, outside src, and is passed in), otherwise
log and fall back to the full scan. -/
def playlistByExt (fs : FS) (exts : List String) (paths : List String)
    (m3u : String → Except String Playlist) (resolved : String) :
    Except String Playlist :=
  if (splitext resolved).2 = ".m3u" ∨ (splitext resolved).2 = ".m3u8" then m3u resolved
  else buildPlaylistFromAllFiles fs exts paths

/-- VideoLooper._build_playlist: with no configured playlist option or an empty
path, do the full scan; an absolute path must be an existing file; a relative
path is searched across the reader's search paths (returning the empty playlist
immediately when there are none), taking the first root under which it is a
file; unresolved paths and unrecognized extensions fall back to the full
scan. -/
def build_playlist (fs : FS) (hasOpt : Bool) (ppath : String) (paths : List String)
    (exts : List String) (m3u : String → Except String Playlist) :
    Except String Playlist :=
  if hasOpt = true then
    if ppath ≠ "" then
      if isAbsPath ppath = true then
        if fs.isfile ppath = false then buildPlaylistFromAllFiles fs exts paths
        else playlistByExt fs exts paths m3u ppath
      else
        if paths = [] then .ok { movies := [] }
        else
          match paths.find? (fun root => fs.isfile (pathJoin root ppath)) with
          | some root => playlistByExt fs exts paths m3u (pathJoin root ppath)
          | none => buildPlaylistFromAllFiles fs exts paths
    else buildPlaylistFromAllFiles fs exts paths
  else buildPlaylistFromAllFiles fs exts paths

/-- The resolution phase of _build_playlist in isolation (used to state which
file, if any, a configured playlist path resolves to). -/
def resolvePlaylistPath (fs : FS) (paths : List String) (p : String) : Option String :=
  if isAbsPath p = true then (if fs.isfile p = true then some p else none)
  else (paths.find? (fun root => fs.isfile (pathJoin root p))).map (fun root => pathJoin root p)

/- ===== video_looper.py : the run loop's play/wait/rebuild logic ===== -/

/-- The mutable per-movie fields the run loop reads and writes (repeats fixed at
build time, playcount mutated by was_played / clear_playcount). -/
structure MovieSt where
  repeats : Int
  playcount : Int
deriving DecidableEq

/-- The configuration the run loop's play branch reads: the inter-item wait in
seconds and whether the player natively counts loops. -/
structure LoopCfg where
  waitTime : Int
  canLoopCount : Bool
deriving DecidableEq

/-- The VideoLooper state the loop iterates on: the _firstStart flag (set by
__init__ and by _prepare_to_run_playlist), the current movie (None on an empty
playlist), and the _playbackStopped flag. -/
structure OrchState where
  firstStart : Bool
  movie : Option MovieSt
  playbackStopped : Bool
deriving DecidableEq

/-- What the external collaborators report during one loop iteration: whether
the player is still playing, whether the file reader signals a change, what
playlist.get_next returns if the play branch advances (total: get_next on a
nonempty playlist always yields a movie), and what it returns after a rebuild
(None when the rebuilt playlist is empty). -/
structure Obs where
  isPlaying : Bool
  isChanged : Bool
  nextMovie : MovieSt
  rebuildMovie : Option MovieSt
deriving DecidableEq

/-- What one loop iteration did: whether a movie was (re)started, whether the
inter-item sleep ran before it, and whether the playlist was rebuilt. -/
structure Effects where
  played : Bool
  waited : Bool
  rebuilt : Bool
deriving DecidableEq

/-- The play branch of VideoLooper.run: when the player is idle and playback is
not stopped and a movie is current, advance past a movie whose playcount
reached its repeats (or, with a loop-counting player, any movie with a started
playcount), mark the movie played, sleep the configured wait unless this is the
first start, and clear _firstStart.  Returns the new state, whether a play
happened, and whether the sleep ran. -/
def playStep (cfg : LoopCfg) (s : OrchState) (o : Obs) : OrchState × Bool × Bool :=
  if o.isPlaying = false ∧ s.playbackStopped = false then
    match s.movie with
    | none => (s, false, false)
    | some m =>
      let cur := if m.playcount ≥ m.repeats then o.nextMovie
                 else if cfg.canLoopCount = true ∧ m.playcount > 0 then o.nextMovie
                 else m
      ({ s with movie := some { cur with playcount := cur.playcount + 1 }, firstStart := false },
       true,
       decide (cfg.waitTime > 0) && !s.firstStart)
  else (s, false, false)

/-- One iteration of the while loop of VideoLooper.run: the play branch, then
the change check, whose rebuild path stops the player, rebuilds the playlist,
calls _prepare_to_run_playlist (setting _firstStart back to true) and fetches
the next movie. -/
def loopIter (cfg : LoopCfg) (s : OrchState) (o : Obs) : OrchState × Effects :=
  let ps := playStep cfg s o
  if o.isChanged = true ∧ ps.1.playbackStopped = false then
    ({ ps.1 with firstStart := true, movie := o.rebuildMovie },
     { played := ps.2.1, waited := ps.2.2, rebuilt := true })
  else (ps.1, { played := ps.2.1, waited := ps.2.2, rebuilt := false })

/-- The state after running the loop over a list of per-iteration observations. -/
def stateAfter (cfg : LoopCfg) (s : OrchState) : List Obs → OrchState
  | [] => s
  | o :: os => stateAfter cfg (loopIter cfg s o).1 os

/-- The effect trace of running the loop over a list of observations. -/
def runTrace (cfg : LoopCfg) (s : OrchState) : List Obs → List Effects
  | [] => []
  | o :: os => (loopIter cfg s o).2 :: runTrace cfg (loopIter cfg s o).1 os

/-- Spec-side bookkeeping for the wait policy: scanning an effect trace, has a
play happened since the most recent prepare (a rebuild, or the start of the
trace)? -/
def prepStep (acc : Bool) (e : Effects) : Bool :=
  if e.rebuilt then false else acc || e.played

/-- Fold of prepStep from an arbitrary starting flag. -/
def playedAux (acc : Bool) (es : List Effects) : Bool := es.foldl prepStep acc

/-- Has some play happened since the last prepare, over a trace that begins
right after a prepare? -/
def playedSincePrep (es : List Effects) : Bool := playedAux false es

/- ===== theorems ===== -/

/-- The call self.copyfileobj(fsrc, fdst, total=size) in copyfile supplies two
positional arguments and the keyword total, leaving the required parameter
callback unbound. -/
theorem copyfileobjCallMissing : callBinds copyfileobjParams 2 ["total"] = false := by decide

/-- Every copy context copy_files builds for a source entry makes copy_with_progress
raise TypeError after creating the destination file. -/
theorem copyCtxForErrs (tgt : List String) (x : String) :
    copy_with_progress (copyCtxFor tgt x) true = (Except.error PyErr.typeError, true) := by
  unfold copy_with_progress copyfile copyCtxFor
  by_cases hc : tgt.contains x = true
  · simp [hc, copyfileobjCallMissing]
  · simp [hc, copyfileobjCallMissing]

/-- C2 (counterexample to the claim as stated): a call whose source is an
existing regular file distinct from the destination, but whose destination is a
named pipe, raises SpecialFileError, not TypeError. -/
theorem C2_cex :
    copy_with_progress
      { sameFile := false, srcStat := some StatKind.regular,
        dstStat := some StatKind.fifo, srcIsLink := false } true
    = (Except.error PyErr.specialFileError, false) := by decide

/-- C2 (amended): with follow_symlinks left at its default, a source that is an
existing regular file distinct from the destination and a destination that is
not a named pipe always make copyfile (hence copy_with_progress) raise
TypeError, because copyfileobj is invoked without its required callback
parameter; consequently the copy pass of copy_files never completes any file
copy (when it returns without an exception, the target listing is unchanged). -/
theorem C2_thm :
    (∀ ctx : CopyCtx, ctx.sameFile = false → ctx.srcStat = some StatKind.regular →
      ctx.dstStat ≠ some StatKind.fifo →
      (copy_with_progress ctx true).1 = Except.error PyErr.typeError)
    ∧ (∀ (exts files tgt : List String),
      (copyLoop exts files tgt).2 = none → (copyLoop exts files tgt).1 = tgt) := by
  constructor
  · intro ctx h1 h2 h3
    unfold copy_with_progress copyfile
    simp [h1, h2, h3, copyfileobjCallMissing]
  · intro exts files
    induction files with
    | nil => intro tgt _; rfl
    | cons x rest ih =>
      intro tgt h
      unfold copyLoop at h ⊢
      by_cases hm : mediaName exts x = true
      · rw [if_pos hm] at h ⊢
        rw [copyCtxForErrs] at h
        simp at h
      · rw [if_neg hm] at h ⊢
        exact ih tgt h

/-- C2 witness: a concrete context (existing regular source, absent destination)
on which the amended theorem applies. -/
theorem C2_w :
    (copy_with_progress
      { sameFile := false, srcStat := some StatKind.regular,
        dstStat := none, srcIsLink := false } true).1 = Except.error PyErr.typeError :=
  C2_thm.1 _ rfl rfl (by decide)

/-- C1 (counterexample to the claim as stated): the failure of the very first
file copy propagates out of copy_files — the second file of the batch (on the
second root) is never processed, so a single-file copy failure does abort the
batch. -/
theorem C1_cex :
    copy_files ⟨"add", "", false, ["mp4"], none⟩
      [⟨true, ["m1.mp4"]⟩, ⟨true, ["m2.mp4"]⟩] []
    = (⟨"add", ["m1.mp4"]⟩, some PyErr.typeError) := by decide

/-- C1 (amended): no exception handling surrounds the per-file copy inside
copy_files; whatever error processRoot raises for the first root propagates out
of copy_files unchanged, with every remaining root left unprocessed. -/
theorem C1_thm (cfg : CopyCfg) (target : List String) (r : Root) (rest : List Root)
    (stE : CopySt) (e : PyErr)
    (h : processRoot cfg { copyMode := cfg.copyMode, target := target } r = (stE, some e)) :
    copy_files cfg (r :: rest) target = (stE, some e) := by
  unfold copy_files copyFilesLoop
  rw [h]

/-- C1 witness: a concrete batch on which the amended propagation theorem
applies. -/
theorem C1_w :
    copy_files ⟨"add", "", false, ["mp4"], none⟩ [⟨true, ["v.mp4"]⟩, ⟨true, []⟩] []
    = (⟨"add", ["v.mp4"]⟩, some PyErr.typeError) :=
  C1_thm _ _ _ _ _ _ (by decide)

/-- C3 (counterexample to the claim as stated): with configured default
"replace", a first root carrying only an `add` trigger and a second root with
no trigger files, the second root is processed in mode "add" carried over from
the first (the target file a.mp4 survives), although the spec-side effective
mode of a trigger-less root is the configured default "replace" (which would
have deleted it). -/
theorem C3_cex :
    copy_files ⟨"replace", "", false, ["mp4"], none⟩ [⟨true, ["add"]⟩, ⟨true, []⟩] ["a.mp4"]
      = (⟨"add", ["a.mp4"]⟩, none)
    ∧ specEffectiveMode "replace" [] = "replace"
    ∧ ("add" : String) ≠ "replace" := by decide

/-- C3 (amended): the copy-mode override block resolves exactly-one-trigger
roots to that trigger's mode and both-trigger roots to the configured default,
but a root with no trigger files keeps the mode the copy_mode variable already
had — i.e. the mode carried over from the most recent processed root — and the
non-skipped branch of processRoot uses precisely this value. -/
theorem C3_thm :
    (∀ (prev dflt : String) (files : List String),
      determineMode prev dflt files =
        (if check_file_exists files "replace" = true ∧ check_file_exists files "add" = true then dflt
         else if check_file_exists files "replace" = true then "replace"
         else if check_file_exists files "add" = true then "add"
         else prev))
    ∧ (∀ (cfg : CopyCfg) (st : CopySt) (r : Root),
      r.isDir = true →
      ¬ (cfg.password ≠ "" ∧ check_file_exists r.files cfg.password = false) →
      (processRoot cfg st r).1.copyMode = determineMode st.copyMode cfg.copyMode r.files) := by
  constructor
  · intro prev dflt files
    by_cases h1 : check_file_exists files "replace" = true
      <;> by_cases h2 : check_file_exists files "add" = true
      <;> simp [determineMode, h1, h2]
  · intro cfg st r hdir hgate
    unfold processRoot
    rw [if_neg (by simp [hdir]), if_neg hgate]

/-- C3 witness: applying the mode characterization at a concrete non-skipped
root. -/
theorem C3_w :
    (processRoot ⟨"replace", "", false, ["mp4"], none⟩ ⟨"add", ["a.mp4"]⟩ ⟨true, []⟩).1.copyMode
      = determineMode "add" "replace" [] :=
  C3_thm.2 _ _ _ rfl (by decide)

/-- C4: evaluating copy_files at the failing input — mode "replace", target
library a.mp4 and b.mp4, one root with c.mp4 and d.mp4.  The code deletes the
two target files, creates an empty c.mp4 (open of the destination precedes the
failing copyfileobj call) and then raises TypeError, so d.mp4 is never copied
and the target ends as a single empty stub instead of the two copied files the
claim requires. -/
theorem C4_eval :
    copy_files ⟨"replace", "", false, ["mp4"], none⟩
      [⟨true, ["c.mp4", "d.mp4"]⟩] ["a.mp4", "b.mp4"]
    = (⟨"replace", ["c.mp4"]⟩, some PyErr.typeError) := by decide

/-- A root that fails the password gate is processed as a no-op. -/
theorem processRootGateSkip (cfg : CopyCfg) (st : CopySt) (r : Root)
    (hp : cfg.password ≠ "") (hg : check_file_exists r.files cfg.password = false) :
    processRoot cfg st r = (st, none) := by
  unfold processRoot
  by_cases hd : r.isDir = false
  · rw [if_pos hd]
  · rw [if_neg hd, if_pos ⟨hp, hg⟩]

/-- Deleting a password-gated root anywhere in the batch leaves the whole run of
the roots loop unchanged. -/
theorem copyFilesLoopSkip (cfg : CopyCfg) (r : Root) (suff : List Root)
    (hp : cfg.password ≠ "") (hg : check_file_exists r.files cfg.password = false) :
    ∀ (pre : List Root) (st : CopySt),
      copyFilesLoop cfg (pre ++ r :: suff) st = copyFilesLoop cfg (pre ++ suff) st := by
  intro pre
  induction pre with
  | nil =>
    intro st
    simp only [List.nil_append]
    conv_lhs => rw [copyFilesLoop]
    rw [processRootGateSkip cfg st r hp hg]
  | cons q qs ih =>
    intro st
    simp only [List.cons_append]
    unfold copyFilesLoop
    rcases hq : processRoot cfg st q with ⟨st2, err⟩
    cases err with
    | none => exact ih st2
    | some e => rfl

/-- C5: with a non-empty configured password and no file named the password
(with or without extension) at a root, copy_files skips that root entirely —
the batch behaves exactly as if the root were absent, so nothing is copied from
it and nothing is deleted from the target library on its account. -/
theorem C5_thm (cfg : CopyCfg) (target : List String) (pre suff : List Root) (r : Root)
    (hp : cfg.password ≠ "") (hg : check_file_exists r.files cfg.password = false) :
    copy_files cfg (pre ++ r :: suff) target = copy_files cfg (pre ++ suff) target := by
  unfold copy_files
  exact copyFilesLoopSkip cfg r suff hp hg pre _

/-- C5 witness: a concrete gated root (password "secret", no secret file). -/
theorem C5_w :
    copy_files ⟨"add", "secret", false, ["mp4"], none⟩ [⟨true, ["x.mp4"]⟩] ["a.mp4"]
    = copy_files ⟨"add", "secret", false, ["mp4"], none⟩ [] ["a.mp4"] :=
  C5_thm _ _ [] [] _ (by decide) (by decide)

/-- C8: evaluating parse_hw_device_tuple — a literal "N,N" does give the int
pair and an unknown non-empty string does raise the configuration error, but a
string equal to an available card's display name returns the bare card index
(Python `return (m)` parenthesizes an int, it builds no tuple), not a
(card-index, device-index) pair. -/
theorem C8_eval :
    parse_hw_device_tuple [(0, "HDMI")] "HDMI" = Except.ok (some (HwDevice.cardOnly 0))
    ∧ parse_hw_device_tuple [] "3,4" = Except.ok (some (HwDevice.pair 3 4))
    ∧ parse_hw_device_tuple [(0, "HDMI")] "nonsense"
        = Except.error "Invalid value for alsa hardware device: nonsense" := by decide

/-- C10: is_changed reports a change only when at least one qualifying drive is
currently attached (it is the conjunction of poll_changes and has_nodes); in
particular, after the removal of the last attached drive the current node set
is empty and is_changed returns false, whatever the previous snapshot was. -/
theorem C10_thm (s : MounterState) :
    ((is_changed s).1 = true → s.current ≠ [])
    ∧ (s.current = [] → (is_changed s).1 = false) := by
  constructor
  · intro h hc
    rw [is_changed] at h
    simp [has_nodes, poll_changes, hc] at h
  · intro hc
    rw [is_changed]
    simp [has_nodes, poll_changes, hc]

/-- C10 witness: the last drive was just removed (nonempty snapshot, empty
current set): no change is reported. -/
theorem C10_w : (is_changed ⟨[], ["sda1"]⟩).1 = false :=
  (C10_thm ⟨[], ["sda1"]⟩).2 rfl

/-- The group captured by one successful pattern attempt consists of digits
only (it is a takeWhile of the digit predicate). -/
theorem matchRepeatAtDigits (cs : List Char) (g : String)
    (h : matchRepeatAt cs = some g) : g.toList.all Char.isDigit = true := by
  unfold matchRepeatAt at h
  split at h
  · split at h
    · split at h
      · simp only [Option.some.injEq] at h
        subst h
        exact List.all_eq_true.mpr (fun a ha => List.mem_takeWhile_imp ha)
      · simp at h
    · simp at h
  · simp at h

/-- Every group the regex search returns consists of digits only. -/
theorem searchRepeatDigits :
    ∀ (cs : List Char) (g : String), searchRepeat cs = some g →
      g.toList.all Char.isDigit = true := by
  intro cs
  induction cs with
  | nil =>
    intro g h
    simp [searchRepeat] at h
  | cons c cs ih =>
    intro g h
    unfold searchRepeat at h
    rcases hm : matchRepeatAt (c :: cs) with _ | g2
    · rw [hm] at h
      exact ih g h
    · rw [hm] at h
      simp only [Option.some.injEq] at h
      subst h
      exact matchRepeatAtDigits _ _ hm

/-- C9 (counterexample to the claim as stated): the filename a_repeat_x.mp4
does not match the spec pattern name_repeat_Nx.ext with a number N, so per the
claim its Movie must have repeats == 1; but the code's regex _repeat_([0-9]*)x
matches it with an EMPTY digit group, which is handed to int() and makes Movie
construction raise ValueError — no Movie with repeats 1 is built. -/
theorem C9_cex :
    mediaName ["mp4"] "a_repeat_x.mp4" = true
    ∧ repeatSetting "a_repeat_x.mp4" = some ""
    ∧ scannedRepeats "a_repeat_x.mp4" = none := by decide

/-- C9 (amended): when the regex search of _repeat_([0-9]*)x (case-insensitive)
finds no match the Movie gets repeats == 1; when it matches with a nonempty
digit group N the Movie gets repeats == N read as a decimal number; when it
matches with an empty group (a bare _repeat_x in the name) the empty string
reaches int() and Movie construction fails instead of defaulting to 1. -/
theorem C9_thm (x : String) :
    (repeatSetting x = none → scannedRepeats x = some 1)
    ∧ (∀ g : String, repeatSetting x = some g → g ≠ "" →
        scannedRepeats x = some (Int.ofNat (digitsToNat g.toList)))
    ∧ (repeatSetting x = some "" → scannedRepeats x = none) := by
  refine ⟨?_, ?_, ?_⟩
  · intro h
    unfold scannedRepeats movieOfFilename
    rw [h]
    rfl
  · intro g hg hne
    have hd : g.toList.all Char.isDigit = true := searchRepeatDigits _ _ hg
    have hn : g.toList ≠ [] := fun h0 => hne (String.ext (h0.trans rfl))
    have hp : pyInt g = some (Int.ofNat (digitsToNat g.toList)) := by
      unfold pyInt
      rw [if_pos ⟨hn, hd⟩]
    unfold scannedRepeats movieOfFilename
    simp only [hg, hp]
    rfl
  · intro h
    unfold scannedRepeats movieOfFilename
    rw [h]
    rfl

/-- C9 witness: a filename with a nonempty digit group parses to that repeat
count. -/
theorem C9_w : scannedRepeats "movie_repeat_12x.mp4" = some 12 :=
  (C9_thm "movie_repeat_12x.mp4").2.1 "12" (by decide) (by decide)

/-- C7: whenever a configured non-empty playlist path fails to resolve (an
absolute path that is not an existing file, or a relative path that is a file
under none of the current search roots) or resolves to a file whose extension
is neither .m3u nor .m3u8, _build_playlist returns exactly the full-directory-
scan playlist (in the corner case of a relative path with no search roots at
all it returns the empty playlist directly, which coincides with the full scan
over no roots), and no error is raised. -/
theorem C7_thm (fs : FS) (paths exts : List String) (m3u : String → Except String Playlist)
    (ppath : String) (hne : ppath ≠ "")
    (hfail : resolvePlaylistPath fs paths ppath = none
      ∨ ∃ r, resolvePlaylistPath fs paths ppath = some r
          ∧ (splitext r).2 ≠ ".m3u" ∧ (splitext r).2 ≠ ".m3u8") :
    build_playlist fs true ppath paths exts m3u = buildPlaylistFromAllFiles fs exts paths := by
  unfold build_playlist
  rw [if_pos (show (true : Bool) = true from rfl), if_pos hne]
  unfold resolvePlaylistPath at hfail
  by_cases habs : isAbsPath ppath = true
  · rw [if_pos habs]
    rw [if_pos habs] at hfail
    by_cases hf : fs.isfile ppath = true
    · rw [if_pos hf] at hfail
      rw [if_neg (by simp [hf])]
      rcases hfail with h | ⟨r, hr, h1, h2⟩
      · exact absurd h (by simp)
      · have hrp : r = ppath := by simpa using hr.symm
        subst hrp
        unfold playlistByExt
        rw [if_neg (by simp [h1, h2])]
    · have hbf : fs.isfile ppath = false := by
        revert hf
        cases fs.isfile ppath <;> simp
      rw [if_pos hbf]
  · rw [if_neg habs]
    rw [if_neg habs] at hfail
    by_cases hps : paths = []
    · subst hps
      rw [if_pos rfl]
      rfl
    · rw [if_neg hps]
      rcases hfd : paths.find? (fun root => fs.isfile (pathJoin root ppath)) with _ | root
      · rfl
      · show playlistByExt fs exts paths m3u (pathJoin root ppath)
          = buildPlaylistFromAllFiles fs exts paths
        rcases hfail with h | ⟨r, hr, h1, h2⟩
        · rw [hfd] at h
          simp at h
        · rw [hfd] at hr
          simp at hr
          subst hr
          unfold playlistByExt
          rw [if_neg (by simp [h1, h2])]

/-- C7 witness: a relative configured path over one root that holds no such
file falls back to the full scan. -/
theorem C7_w :
    build_playlist fsNone true "list.txt" ["/videos"] ["mp4"] (fun _ => Except.ok ⟨[]⟩)
    = buildPlaylistFromAllFiles fsNone ["mp4"] ["/videos"] :=
  C7_thm fsNone ["/videos"] ["mp4"] (fun _ => Except.ok ⟨[]⟩) "list.txt"
    (by decide) (Or.inl rfl)

/-- One loop iteration preserves a cleared stopped flag, updates _firstStart
exactly as the spec-side bookkeeping predicts (cleared by a play, re-set by a
rebuild in the same iteration), and, when it starts a play, waits exactly when
the configured wait is positive and _firstStart was clear. -/
theorem loopIterFlag (cfg : LoopCfg) (s : OrchState) (o : Obs)
    (hs : s.playbackStopped = false) :
    (loopIter cfg s o).1.playbackStopped = false
    ∧ (loopIter cfg s o).1.firstStart = !(prepStep (!s.firstStart) (loopIter cfg s o).2)
    ∧ ((loopIter cfg s o).2.played = true →
        (loopIter cfg s o).2.waited = (decide (cfg.waitTime > 0) && !s.firstStart)) := by
  rcases o with ⟨ip, ic, nm, rm⟩
  rcases s with ⟨fsF, mov, pbs⟩
  simp only at hs
  subst hs
  cases ip <;> cases ic <;> rcases mov with _ | m <;>
    simp [loopIter, playStep, prepStep]

/-- Along any run from a state with cleared stopped flag, the stopped flag
stays cleared and _firstStart is the negation of "some play happened since the
last prepare" computed over the effect trace. -/
theorem orchInvariant (cfg : LoopCfg) :
    ∀ (os : List Obs) (s : OrchState), s.playbackStopped = false →
      (stateAfter cfg s os).playbackStopped = false
      ∧ (stateAfter cfg s os).firstStart = !(playedAux (!s.firstStart) (runTrace cfg s os)) := by
  intro os
  induction os with
  | nil =>
    intro s hs
    refine ⟨hs, ?_⟩
    simp [stateAfter, runTrace, playedAux]
  | cons o os ih =>
    intro s hs
    have hl := loopIterFlag cfg s o hs
    have hrec := ih (loopIter cfg s o).1 hl.1
    refine ⟨hrec.1, ?_⟩
    show (stateAfter cfg (loopIter cfg s o).1 os).firstStart
      = !(playedAux (!s.firstStart) (runTrace cfg s (o :: os)))
    rw [hrec.2, hl.2.1]
    simp [playedAux, runTrace]

/-- C6: in any run of the orchestration loop that starts right after a prepare
(specifically _prepare_to_run_playlist sets _firstStart, both at session start
and on every storage-change rebuild), with a positive configured wait, an
iteration that starts a play performs the inter-item wait exactly when some
play already happened since the most recent prepare — i.e. the wait is applied
before every play except the very first play of a session. -/
theorem C6_thm (cfg : LoopCfg) (s0 : OrchState) (pre : List Obs) (o : Obs)
    (hw : cfg.waitTime > 0) (h1 : s0.firstStart = true) (hs : s0.playbackStopped = false)
    (hp : (loopIter cfg (stateAfter cfg s0 pre) o).2.played = true) :
    (loopIter cfg (stateAfter cfg s0 pre) o).2.waited
      = playedSincePrep (runTrace cfg s0 pre) := by
  have hinv := orchInvariant cfg pre s0 hs
  have hl := loopIterFlag cfg (stateAfter cfg s0 pre) o hinv.1
  rw [hl.2.2 hp, hinv.2, h1, decide_eq_true hw]
  simp [playedSincePrep]

/-- C6 witness: after one iteration that already played, the next play does
wait (and the trace bookkeeping agrees). -/
theorem C6_w :
    (loopIter ⟨5, false⟩ (stateAfter ⟨5, false⟩ ⟨true, some ⟨1, 0⟩, false⟩
        [⟨false, false, ⟨1, 0⟩, none⟩]) ⟨false, false, ⟨1, 0⟩, none⟩).2.waited
      = playedSincePrep (runTrace ⟨5, false⟩ ⟨true, some ⟨1, 0⟩, false⟩
        [⟨false, false, ⟨1, 0⟩, none⟩]) :=
  C6_thm ⟨5, false⟩ ⟨true, some ⟨1, 0⟩, false⟩ [⟨false, false, ⟨1, 0⟩, none⟩]
    ⟨false, false, ⟨1, 0⟩, none⟩ (by decide) rfl rfl (by decide)
